import Mathlib

/-!
Shallow embedding of the pop-message coordination core and the escape/failover
router of the rocketmq-rust broker excerpt, together with proofs of the
specified properties.

Source files embedded:
- rocketmq-broker/src/processor/pop_message_processor.rs
  (PopMessageProcessor id builders, TimedLock, QueueLockManager)
- rocketmq-broker/src/failover/escape_bridge.rs
  (EscapeBridge.put_message, transform_send_result2put_result)

Time is embedded by passing the current-millis value explicitly as a `now`
argument wherever the source calls get_current_millis.  The concurrent map
guarded by a mutex is embedded as an association list, since every registry
operation in the source runs entirely under the single registry mutex.
-/

namespace RocketMQ

/-- Modelled from the spec: the fixed delimiter and trailing tags of the
correlation ids come from rocketmq_common PopAckConstants, which is outside
the excerpt; section 6 of the spec fixes the delimiter as the at sign and the
tags as ack, bAck and ck. -/
def PopAckConstants.SPLIT : String := "@"

/-- Modelled from the spec: trailing tag of an acknowledgment id. -/
def PopAckConstants.ACK_TAG : String := "ack"

/-- Modelled from the spec: trailing tag of a batch-acknowledgment id. -/
def PopAckConstants.BATCH_ACK_TAG : String := "bAck"

/-- Modelled from the spec: trailing tag of a checkpoint id. -/
def PopAckConstants.CK_TAG : String := "ck"

/-- Modelled from the spec: the broker id reserved for the master role, from
rocketmq_common mix_all, outside the excerpt; the spec (section 4.4, branch 1)
identifies holding the master role with the broker id equalling this
constant. -/
def mix_all.MASTER_ID : Nat := 0

/-- Modelled from the spec: RemoteSendOutcome (section 3), the status carried
by a SendResult of rocketmq_client_rust, outside the excerpt.  Only the
send_status field of SendResult is read by the embedded code. -/
inductive SendStatus where
  | SendOk
  | FlushDiskTimeout
  | FlushSlaveTimeout
  | SlaveNotAvailable
deriving DecidableEq, Repr

/-- Modelled from the spec: the remote send result; the embedded translation
reads only its send_status. -/
structure SendResult where
  send_status : SendStatus
deriving DecidableEq, Repr

/-- Modelled from the spec: PutOutcome statuses (section 3), from
rocketmq_store PutMessageStatus, outside the excerpt. -/
inductive PutMessageStatus where
  | PutOk
  | FlushDiskTimeout
  | FlushSlaveTimeout
  | SlaveNotAvailable
  | ServiceNotAvailable
  | PutToRemoteBrokerFail
deriving DecidableEq, Repr

/-- Modelled from the spec: PutOutcome (section 3), a status carrying a
boolean is-remote tag, from rocketmq_store PutMessageResult, outside the
excerpt.  The append-result payload is opaque to this core and kept as an
option on Unit so call sites keep the arity of the source constructor. -/
structure PutMessageResult where
  put_message_status : PutMessageStatus
  append_message_result : Option Unit
  remote : Bool
deriving DecidableEq, Repr

/-- Modelled from the spec: the three-argument constructor used by the
translation, PutMessageResult.new(status, None, remote). -/
def PutMessageResult.new (status : PutMessageStatus) (append : Option Unit)
    (remote : Bool) : PutMessageResult :=
  { put_message_status := status, append_message_result := append, remote := remote }

/-- Modelled from the spec: PutMessageResult.new_default(status), carrying no
append result and not tagged remote. -/
def PutMessageResult.new_default (status : PutMessageStatus) : PutMessageResult :=
  { put_message_status := status, append_message_result := none, remote := false }

/-- Modelled from the spec: the message record handed to put_message.  Only
the wait-store-msg-ok flag is touched by the embedded code; the payload is
kept opaque as a string body. -/
structure MessageExtBrokerInner where
  body : String
  wait_store_msg_ok : Bool
deriving DecidableEq, Repr

/-- Embedding of MessageTrait.set_wait_store_msg_ok as used by put_message. -/
def MessageExtBrokerInner.set_wait_store_msg_ok (m : MessageExtBrokerInner)
    (b : Bool) : MessageExtBrokerInner :=
  { m with wait_store_msg_ok := b }

/-- Modelled from the spec: broker identity from rocketmq_common
BrokerConfig, outside the excerpt; only broker_id is read. -/
structure BrokerIdentity where
  broker_id : Nat
deriving DecidableEq, Repr

/-- Modelled from the spec: the configuration flags read by the escape
router (section 4.4). -/
structure BrokerConfig where
  broker_identity : BrokerIdentity
  enable_slave_acting_master : Bool
  enable_remote_escape : Bool
deriving DecidableEq, Repr

/-- Embedding of transform_send_result2put_result from escape_bridge.rs
lines 114 to 131: total translation of an optional remote send result into a
local PutMessageResult, always tagged remote. -/
def transform_send_result2put_result (send_result : Option SendResult) :
    PutMessageResult :=
  match send_result with
  | none => PutMessageResult.new PutMessageStatus.PutToRemoteBrokerFail none true
  | some result =>
    match result.send_status with
    | SendStatus.SendOk =>
        PutMessageResult.new PutMessageStatus.PutOk none true
    | SendStatus.FlushDiskTimeout =>
        PutMessageResult.new PutMessageStatus.FlushDiskTimeout none true
    | SendStatus.FlushSlaveTimeout =>
        PutMessageResult.new PutMessageStatus.FlushSlaveTimeout none true
    | SendStatus.SlaveNotAvailable =>
        PutMessageResult.new PutMessageStatus.SlaveNotAvailable none true

/-- Embedding of the EscapeBridge state needed by put_message.  The local
store and the remote send path are external collaborators (the remote path is
an unimplemented stub in the excerpt); they are embedded as function-valued
fields so the decision procedure can be proved for every collaborator. -/
structure EscapeBridge where
  broker_config : BrokerConfig
  message_store : MessageExtBrokerInner → PutMessageResult
  put_message_to_remote_broker :
    MessageExtBrokerInner → Option String → Option SendResult

/-- Embedding of EscapeBridge.put_message from escape_bridge.rs lines 88 to
103: the per-request three-branch decision procedure of the escape router. -/
def EscapeBridge.put_message (b : EscapeBridge)
    (message_ext : MessageExtBrokerInner) : PutMessageResult :=
  if b.broker_config.broker_identity.broker_id = mix_all.MASTER_ID then
    b.message_store message_ext
  else if b.broker_config.enable_slave_acting_master
      && b.broker_config.enable_remote_escape then
    let message_ext := message_ext.set_wait_store_msg_ok false
    transform_send_result2put_result
      (b.put_message_to_remote_broker message_ext none)
  else
    PutMessageResult.new_default PutMessageStatus.ServiceNotAvailable

/-- Modelled from the spec: AckMsg of rocketmq_store, outside the excerpt;
fields as listed in section 3 (AckRecord) plus the start_offset field set by
the excerpt's tests.  Integer fields are embedded as Int, matching the signed
integer rendering of the source. -/
structure AckMsg where
  ack_offset : Int
  start_offset : Int
  consumer_group : String
  topic : String
  queue_id : Int
  pop_time : Int
  broker_name : String
deriving DecidableEq, Repr

/-- Modelled from the spec: BatchAckMsg of rocketmq_store, outside the
excerpt; an AckMsg plus the ordered offset list (section 3). -/
structure BatchAckMsg where
  ack_msg : AckMsg
  ack_offset_list : List Int
deriving DecidableEq, Repr

/-- Modelled from the spec: PopCheckPoint of rocketmq_store, outside the
excerpt; fields as listed in section 3 (CheckpointRecord).  Only the fields
feeding the correlation id matter to this core; the rest are opaque
payload. -/
structure PopCheckPoint where
  topic : String
  queue_id : Int
  start_offset : Int
  cid : String
  revive_offset : Int
  pop_time : Int
  invisible_time : Int
  bit_map : Int
  broker_name : Option String
  num : Int
  queue_offset_diff : List Int
  re_put_times : Option String
deriving DecidableEq, Repr

/-- Modelled from the spec: the debug rendering of a vector of integers used
by the batch id builder, the bracketed comma-space-separated list of section
8, for example the literal form of the list 1, 2, 3 used in the tests. -/
def debug_fmt_int_list (xs : List Int) : String :=
  "[" ++ String.intercalate ", " (xs.map toString) ++ "]"

/-- Embedding of PopMessageProcessor.gen_ack_unique_id from
pop_message_processor.rs lines 56 to 73. -/
def PopMessageProcessor.gen_ack_unique_id (ack_msg : AckMsg) : String :=
  ack_msg.topic ++ PopAckConstants.SPLIT
    ++ toString ack_msg.queue_id ++ PopAckConstants.SPLIT
    ++ toString ack_msg.ack_offset ++ PopAckConstants.SPLIT
    ++ ack_msg.consumer_group ++ PopAckConstants.SPLIT
    ++ toString ack_msg.pop_time ++ PopAckConstants.SPLIT
    ++ ack_msg.broker_name ++ PopAckConstants.SPLIT
    ++ PopAckConstants.ACK_TAG

/-- Embedding of PopMessageProcessor.gen_batch_ack_unique_id from
pop_message_processor.rs lines 75 to 90. -/
def PopMessageProcessor.gen_batch_ack_unique_id (batch_ack_msg : BatchAckMsg) :
    String :=
  batch_ack_msg.ack_msg.topic ++ PopAckConstants.SPLIT
    ++ toString batch_ack_msg.ack_msg.queue_id ++ PopAckConstants.SPLIT
    ++ debug_fmt_int_list batch_ack_msg.ack_offset_list ++ PopAckConstants.SPLIT
    ++ batch_ack_msg.ack_msg.consumer_group ++ PopAckConstants.SPLIT
    ++ toString batch_ack_msg.ack_msg.pop_time ++ PopAckConstants.SPLIT
    ++ PopAckConstants.BATCH_ACK_TAG

/-- Embedding of PopMessageProcessor.gen_ck_unique_id from
pop_message_processor.rs lines 92 to 111. -/
def PopMessageProcessor.gen_ck_unique_id (ck : PopCheckPoint) : String :=
  ck.topic ++ PopAckConstants.SPLIT
    ++ toString ck.queue_id ++ PopAckConstants.SPLIT
    ++ toString ck.start_offset ++ PopAckConstants.SPLIT
    ++ ck.cid ++ PopAckConstants.SPLIT
    ++ toString ck.pop_time ++ PopAckConstants.SPLIT
    ++ (match ck.broker_name with
        | none => "null"
        | some x => x) ++ PopAckConstants.SPLIT
    ++ PopAckConstants.CK_TAG

/-- Embedding of TimedLock from pop_message_processor.rs lines 114 to 152:
an atomic held flag plus a last-acquired timestamp in milliseconds. -/
structure TimedLock where
  lock : Bool
  lock_time : Nat
deriving DecidableEq, Repr

/-- Embedding of TimedLock.new at the creation instant now. -/
def TimedLock.new (now : Nat) : TimedLock :=
  { lock := false, lock_time := now }

/-- Embedding of TimedLock.try_lock at instant now: the compare-exchange
false to true; on success the lock time is set to now. -/
def TimedLock.try_lock (tl : TimedLock) (now : Nat) : Bool × TimedLock :=
  if tl.lock then
    (false, tl)
  else
    (true, { lock := true, lock_time := now })

/-- Embedding of TimedLock.unlock: unconditionally clears the held flag. -/
def TimedLock.unlock (tl : TimedLock) : TimedLock :=
  { tl with lock := false }

/-- Embedding of TimedLock.is_locked. -/
def TimedLock.is_locked (tl : TimedLock) : Bool :=
  tl.lock

/-- Embedding of TimedLock.get_lock_time. -/
def TimedLock.get_lock_time (tl : TimedLock) : Nat :=
  tl.lock_time

/-- One guarded operation on a TimedLock, used to state the last-acquired
invariant over the operations of the source API. -/
inductive LockOp where
  | tryAcquire
  | release
deriving DecidableEq, Repr

/-- One step of the TimedLock API at instant now: the pair holds the
post-state and whether this step was a successful acquisition. -/
def TimedLock.step (now : Nat) (op : LockOp) (tl : TimedLock) :
    TimedLock × Bool :=
  match op with
  | LockOp.tryAcquire =>
    let r := tl.try_lock now
    (r.2, r.1)
  | LockOp.release => (tl.unlock, false)

/-- Registry state of the QueueLockManager: the key-to-TimedLock map of
pop_message_processor.rs line 155, embedded as an association list since all
registry operations run under the single registry mutex. -/
abbrev QueueLockCache := List (String × TimedLock)

/-- First entry of the cache with the given key, the association-list view of
the map lookup. -/
def lookupKey (cache : QueueLockCache) (key : String) : Option TimedLock :=
  match cache with
  | [] => none
  | p :: rest => if p.1 = key then some p.2 else lookupKey rest key

/-- In-place replacement of the value stored at a key, the association-list
view of mutating the TimedLock reached through the map entry. -/
def updateKey (cache : QueueLockCache) (key : String) (tl : TimedLock) :
    QueueLockCache :=
  cache.map (fun p => if p.1 = key then (key, tl) else p)

/-- Embedding of QueueLockManager.build_lock_key from
pop_message_processor.rs lines 165 to 178. -/
def QueueLockManager.build_lock_key (topic consumer_group : String)
    (queue_id : Int) : String :=
  topic ++ PopAckConstants.SPLIT ++ consumer_group ++ PopAckConstants.SPLIT
    ++ toString queue_id

/-- Embedding of QueueLockManager.try_lock_with_key from
pop_message_processor.rs lines 191 to 195: look up or lazily create the key's
TimedLock, then delegate to try_lock. -/
def QueueLockManager.try_lock_with_key (now : Nat) (key : String)
    (cache : QueueLockCache) : Bool × QueueLockCache :=
  match lookupKey cache key with
  | some tl =>
    let r := tl.try_lock now
    (r.1, updateKey cache key r.2)
  | none =>
    let r := (TimedLock.new now).try_lock now
    (r.1, cache ++ [(key, r.2)])

/-- Embedding of QueueLockManager.try_lock from pop_message_processor.rs
lines 180 to 189: build the composite key, then delegate. -/
def QueueLockManager.try_lock (now : Nat) (topic consumer_group : String)
    (queue_id : Int) (cache : QueueLockCache) : Bool × QueueLockCache :=
  QueueLockManager.try_lock_with_key now
    (QueueLockManager.build_lock_key topic consumer_group queue_id) cache

/-- Embedding of QueueLockManager.unlock_with_key from
pop_message_processor.rs lines 207 to 212: release the key's lock if the
entry exists, a no-op otherwise. -/
def QueueLockManager.unlock_with_key (key : String) (cache : QueueLockCache) :
    QueueLockCache :=
  match lookupKey cache key with
  | some tl => updateKey cache key tl.unlock
  | none => cache

/-- Embedding of QueueLockManager.unlock from pop_message_processor.rs lines
197 to 205. -/
def QueueLockManager.unlock (topic consumer_group : String) (queue_id : Int)
    (cache : QueueLockCache) : QueueLockCache :=
  QueueLockManager.unlock_with_key
    (QueueLockManager.build_lock_key topic consumer_group queue_id) cache

/-- Wrapping u64 subtraction embedded on Nat.  The source computes
get_current_millis() - lock.get_lock_time() on u64, which in a release build
wraps modulo 2 ^ 64 when the lock time exceeds the current time (a debug
build would panic there; the release semantics is embedded).  On the u64
domain, where both arguments are below 2 ^ 64, this definition equals the
wrapping difference (a + 2 ^ 64 - b) % 2 ^ 64; see
u64_wrapping_sub_eq_mod. -/
def u64_wrapping_sub (a b : Nat) : Nat :=
  if b ≤ a then a - b else (a + 2 ^ 64 - b) % 2 ^ 64

/-- The retain predicate of the sweep in pop_message_processor.rs line 217:
an entry is kept when now minus its lock time, computed with the wrapping
u64 subtraction of the source, is at most the idle threshold. -/
def retainLock (now used_expire_millis : Nat) (tl : TimedLock) : Bool :=
  decide (u64_wrapping_sub now tl.get_lock_time ≤ used_expire_millis)

/-- Embedding of QueueLockManager.clean_unused_locks from
pop_message_processor.rs lines 214 to 219: records the cache size, retains
the non-expired entries, and returns the recorded size alongside the swept
cache. -/
def QueueLockManager.clean_unused_locks (now used_expire_millis : Nat)
    (cache : QueueLockCache) : Nat × QueueLockCache :=
  (cache.length, cache.filter (fun p => retainLock now used_expire_millis p.2))

/-- Whether the given key is currently held in the registry; an absent key is
not held. -/
def keyHeld (cache : QueueLockCache) (key : String) : Bool :=
  match lookupKey cache key with
  | some tl => tl.lock
  | none => false

/-- Looking up a key after replacing its stored lock finds the replacement
exactly when the key was present before. -/
theorem lookupKey_updateKey (cache : QueueLockCache) (key : String)
    (tl : TimedLock) :
    lookupKey (updateKey cache key tl) key =
      (lookupKey cache key).map (fun _ => tl) := by
  induction cache with
  | nil => rfl
  | cons p rest ih =>
    by_cases h : p.1 = key
    · simp [updateKey, lookupKey, h]
    · simp only [updateKey, List.map_cons, lookupKey, if_neg h]
      simpa [updateKey] using ih

/-- Appending a fresh entry for an absent key makes the lookup find it. -/
theorem lookupKey_append_none (cache : QueueLockCache) (key : String)
    (tl : TimedLock) (h : lookupKey cache key = none) :
    lookupKey (cache ++ [(key, tl)]) key = some tl := by
  induction cache with
  | nil => simp [lookupKey]
  | cons p rest ih =>
    by_cases hp : p.1 = key
    · simp [lookupKey, hp] at h
    · simp only [lookupKey, if_neg hp] at h
      simpa [lookupKey, if_neg hp] using ih h

/-- On the u64 domain the embedded wrapping subtraction equals the modular
wrapping difference of the machine operation. -/
theorem u64_wrapping_sub_eq_mod (a b : Nat) (ha : a < 2 ^ 64) :
    u64_wrapping_sub a b = (a + 2 ^ 64 - b) % 2 ^ 64 := by
  unfold u64_wrapping_sub
  split_ifs with h
  · have h1 : a + 2 ^ 64 - b = (a - b) + 2 ^ 64 := by
      generalize 2 ^ 64 = N
      omega
    rw [h1, Nat.add_mod_right, Nat.mod_eq_of_lt (by omega)]
  · rfl

/-- Filtering a list partitions its length between the kept and the dropped
elements. -/
theorem length_filter_partition {α : Type} (p : α → Bool) (l : List α) :
    (l.filter p).length + (l.filter (fun a => ! p a)).length = l.length := by
  induction l with
  | nil => rfl
  | cons a l ih =>
    by_cases h : p a = true
    · simp [List.filter, h, ← ih]
      omega
    · simp only [Bool.not_eq_true] at h
      simp [List.filter, h, ← ih]
      omega

/-- C1: EscapeBridge.put_message follows the three-branch decision procedure.
When the local broker id equals the master id the message is persisted via
the local store and the store result is returned unchanged, for every remote
collaborator; when the broker is not master and both the slave-acting-master
and remote-escape flags are set, the message (with its wait-store flag
cleared) is forwarded to the remote collaborator and the translated outcome
is returned, for every local store; otherwise the result is the default
ServiceNotAvailable outcome, independent of both collaborators. -/
theorem put_message_three_branch_decision (b : EscapeBridge)
    (m : MessageExtBrokerInner) :
    (b.broker_config.broker_identity.broker_id = mix_all.MASTER_ID →
      b.put_message m = b.message_store m) ∧
    (b.broker_config.broker_identity.broker_id ≠ mix_all.MASTER_ID →
      b.broker_config.enable_slave_acting_master = true →
      b.broker_config.enable_remote_escape = true →
      b.put_message m =
        transform_send_result2put_result
          (b.put_message_to_remote_broker (m.set_wait_store_msg_ok false) none)) ∧
    (b.broker_config.broker_identity.broker_id ≠ mix_all.MASTER_ID →
      (b.broker_config.enable_slave_acting_master = false ∨
        b.broker_config.enable_remote_escape = false) →
      b.put_message m =
        PutMessageResult.new_default PutMessageStatus.ServiceNotAvailable) := by
  refine ⟨?_, ?_, ?_⟩
  · intro h
    simp [EscapeBridge.put_message, h]
  · intro h h1 h2
    simp [EscapeBridge.put_message, h, h1, h2]
  · intro h hdis
    rcases hdis with h1 | h1 <;> simp [EscapeBridge.put_message, h, h1]

/-- Witness for C1: each branch of the decision procedure evaluated on a
concrete bridge and message. -/
theorem put_message_three_branch_decision_witness :
    (0 = mix_all.MASTER_ID) ∧ (2 ≠ mix_all.MASTER_ID) ∧
    (EscapeBridge.put_message
        ⟨⟨⟨0⟩, false, false⟩,
          (fun _ => PutMessageResult.new PutMessageStatus.PutOk none false),
          (fun _ _ => none)⟩ ⟨"m", true⟩
      = PutMessageResult.new PutMessageStatus.PutOk none false) ∧
    (EscapeBridge.put_message
        ⟨⟨⟨2⟩, true, true⟩,
          (fun _ => PutMessageResult.new PutMessageStatus.PutOk none false),
          (fun _ _ => some ⟨SendStatus.SendOk⟩)⟩ ⟨"m", true⟩
      = PutMessageResult.new PutMessageStatus.PutOk none true) ∧
    (EscapeBridge.put_message
        ⟨⟨⟨2⟩, false, true⟩,
          (fun _ => PutMessageResult.new PutMessageStatus.PutOk none false),
          (fun _ _ => none)⟩ ⟨"m", true⟩
      = PutMessageResult.new_default PutMessageStatus.ServiceNotAvailable) :=
  ⟨rfl, by decide,
    (put_message_three_branch_decision
      ⟨⟨⟨0⟩, false, false⟩,
        (fun _ => PutMessageResult.new PutMessageStatus.PutOk none false),
        (fun _ _ => none)⟩ ⟨"m", true⟩).1 rfl,
    ((put_message_three_branch_decision
      ⟨⟨⟨2⟩, true, true⟩,
        (fun _ => PutMessageResult.new PutMessageStatus.PutOk none false),
        (fun _ _ => some ⟨SendStatus.SendOk⟩)⟩ ⟨"m", true⟩).2.1
          (by decide) rfl rfl).trans rfl,
    (put_message_three_branch_decision
      ⟨⟨⟨2⟩, false, true⟩,
        (fun _ => PutMessageResult.new PutMessageStatus.PutOk none false),
        (fun _ _ => none)⟩ ⟨"m", true⟩).2.2 (by decide) (Or.inl rfl)⟩

/-- C2: transform_send_result2put_result is the total translation table: an
absent result maps to PutToRemoteBrokerFail, SendOk maps to PutOk, each
timeout or unavailable status maps to its same-named local status, and every
produced outcome is tagged remote. -/
theorem transform_send_result_total_mapping :
    (transform_send_result2put_result none).put_message_status =
      PutMessageStatus.PutToRemoteBrokerFail ∧
    (transform_send_result2put_result
      (some ⟨SendStatus.SendOk⟩)).put_message_status = PutMessageStatus.PutOk ∧
    (transform_send_result2put_result
      (some ⟨SendStatus.FlushDiskTimeout⟩)).put_message_status =
        PutMessageStatus.FlushDiskTimeout ∧
    (transform_send_result2put_result
      (some ⟨SendStatus.FlushSlaveTimeout⟩)).put_message_status =
        PutMessageStatus.FlushSlaveTimeout ∧
    (transform_send_result2put_result
      (some ⟨SendStatus.SlaveNotAvailable⟩)).put_message_status =
        PutMessageStatus.SlaveNotAvailable ∧
    ∀ send_result : Option SendResult,
      (transform_send_result2put_result send_result).remote = true := by
  refine ⟨rfl, rfl, rfl, rfl, rfl, ?_⟩
  intro send_result
  cases send_result with
  | none => rfl
  | some result =>
    cases result with
    | mk s => cases s <;> rfl

/-- C3 counterexample: an entry whose last-acquired time exceeds the sweep
instant (the wall clock stepped backward between acquisition and sweep) is
within the idle threshold, yet the wrapping u64 subtraction of the source
makes the sweep remove it, refuting the claim that every entry with
last_acquired within the threshold is retained in every registry state. -/
theorem clean_unused_locks_wrap_counterexample :
    ("k", (⟨false, 100⟩ : TimedLock)) ∈ [("k", (⟨false, 100⟩ : TimedLock))] ∧
    ¬ (⟨false, 100⟩ : TimedLock).get_lock_time < 5 - 3 ∧
    ("k", (⟨false, 100⟩ : TimedLock)) ∉
      (QueueLockManager.clean_unused_locks 5 3
        [("k", (⟨false, 100⟩ : TimedLock))]).2 := by
  refine ⟨by decide, by decide, by decide⟩

/-- C3 amended: on every registry entry whose last-acquired time is at most
the sweep instant (the region where the u64 subtraction cannot underflow),
the sweep removes exactly the entries whose last-acquired time is older than
now minus the idle threshold, and the retain predicate is unconditional on
the held flag: flipping the held flag of an entry does not change whether it
is retained. -/
theorem clean_unused_locks_removes_exactly_stale (now used_expire_millis : Nat)
    (cache : QueueLockCache) (key : String) (tl : TimedLock)
    (h : tl.get_lock_time ≤ now) :
    ((key, tl) ∈
        (QueueLockManager.clean_unused_locks now used_expire_millis cache).2 ↔
      (key, tl) ∈ cache ∧
        ¬ tl.get_lock_time < now - used_expire_millis) ∧
    (∀ b : Bool,
      retainLock now used_expire_millis { lock := b, lock_time := tl.lock_time } =
        retainLock now used_expire_millis tl) := by
  have hwrap : u64_wrapping_sub now tl.lock_time = now - tl.lock_time := by
    unfold u64_wrapping_sub
    rw [if_pos (show tl.lock_time ≤ now from h)]
  constructor
  · simp only [QueueLockManager.clean_unused_locks, List.mem_filter, retainLock,
      hwrap, decide_eq_true_eq, TimedLock.get_lock_time]
    constructor
    · rintro ⟨hm, hle⟩
      exact ⟨hm, by omega⟩
    · rintro ⟨hm, hlt⟩
      exact ⟨hm, by omega⟩
  · intro b
    rfl

/-- Witness for C3: a held lease acquired at 90 and swept at 100 with
threshold 5 satisfies the monotone-clock hypothesis, and the sweep
characterization and held-flag insensitivity evaluate on it concretely. -/
theorem clean_unused_locks_removes_exactly_stale_witness :
    (⟨true, 90⟩ : TimedLock).get_lock_time ≤ 100 ∧
    (("k", (⟨true, 90⟩ : TimedLock)) ∈
        (QueueLockManager.clean_unused_locks 100 5
          [("k", (⟨true, 90⟩ : TimedLock))]).2 ↔
      ("k", (⟨true, 90⟩ : TimedLock)) ∈ [("k", (⟨true, 90⟩ : TimedLock))] ∧
        ¬ (⟨true, 90⟩ : TimedLock).get_lock_time < 100 - 5) ∧
    retainLock 100 5 ⟨false, 90⟩ = retainLock 100 5 ⟨true, 90⟩ :=
  ⟨by decide,
    (clean_unused_locks_removes_exactly_stale 100 5
      [("k", ⟨true, 90⟩)] "k" ⟨true, 90⟩ (by decide)).1,
    (clean_unused_locks_removes_exactly_stale 100 5
      [("k", ⟨true, 90⟩)] "k" ⟨true, 90⟩ (by decide)).2 false⟩

/-- C4: on a registry where the key is not held, try_lock succeeds, a second
try_lock before release fails, and after unlock a further try_lock succeeds
again. -/
theorem try_lock_unlock_try_lock_cycle (cache : QueueLockCache) (key : String)
    (now1 now2 now3 : Nat) (h : keyHeld cache key = false) :
    (QueueLockManager.try_lock_with_key now1 key cache).1 = true ∧
    (QueueLockManager.try_lock_with_key now2 key
        (QueueLockManager.try_lock_with_key now1 key cache).2).1 = false ∧
    (QueueLockManager.try_lock_with_key now3 key
        (QueueLockManager.unlock_with_key key
          (QueueLockManager.try_lock_with_key now1 key cache).2)).1 = true := by
  unfold keyHeld at h
  cases hl : lookupKey cache key with
  | none =>
    refine ⟨?_, ?_, ?_⟩
    · simp [QueueLockManager.try_lock_with_key, hl, TimedLock.new,
        TimedLock.try_lock]
    · simp only [QueueLockManager.try_lock_with_key, hl, TimedLock.new,
        TimedLock.try_lock]
      simp [lookupKey_append_none cache key _ hl,
        QueueLockManager.try_lock_with_key]
    · simp only [QueueLockManager.try_lock_with_key, hl, TimedLock.new,
        TimedLock.try_lock]
      simp [QueueLockManager.unlock_with_key,
        lookupKey_append_none cache key _ hl, TimedLock.unlock,
        lookupKey_updateKey, QueueLockManager.try_lock_with_key]
  | some tl =>
    rw [hl] at h
    simp only at h
    refine ⟨?_, ?_, ?_⟩
    · simp [QueueLockManager.try_lock_with_key, hl, TimedLock.try_lock, h]
    · simp [QueueLockManager.try_lock_with_key, hl, TimedLock.try_lock, h,
        lookupKey_updateKey]
    · simp [QueueLockManager.try_lock_with_key, hl, TimedLock.try_lock, h,
        QueueLockManager.unlock_with_key, lookupKey_updateKey,
        TimedLock.unlock]

/-- Witness for C4: the lock cycle on the empty registry with a concrete
key. -/
theorem try_lock_unlock_try_lock_cycle_witness :
    keyHeld [] "test_topic@test_group@1" = false ∧
    (QueueLockManager.try_lock_with_key 5 "test_topic@test_group@1" []).1 = true ∧
    (QueueLockManager.try_lock_with_key 6 "test_topic@test_group@1"
        (QueueLockManager.try_lock_with_key 5 "test_topic@test_group@1" []).2).1 =
      false ∧
    (QueueLockManager.try_lock_with_key 7 "test_topic@test_group@1"
        (QueueLockManager.unlock_with_key "test_topic@test_group@1"
          (QueueLockManager.try_lock_with_key 5 "test_topic@test_group@1"
            []).2)).1 = true :=
  ⟨rfl,
    (try_lock_unlock_try_lock_cycle [] "test_topic@test_group@1" 5 6 7 rfl).1,
    (try_lock_unlock_try_lock_cycle [] "test_topic@test_group@1" 5 6 7 rfl).2.1,
    (try_lock_unlock_try_lock_cycle [] "test_topic@test_group@1" 5 6 7 rfl).2.2⟩

/-- C5: gen_ack_unique_id joins topic, queue id, ack offset, consumer group,
pop time, broker name and the ack tag with the at-sign delimiter, and on the
reference test record it yields the exact literal of the spec. -/
theorem gen_ack_unique_id_format :
    (∀ a : AckMsg,
      PopMessageProcessor.gen_ack_unique_id a =
        String.intercalate "@"
          [a.topic, toString a.queue_id, toString a.ack_offset,
            a.consumer_group, toString a.pop_time, a.broker_name, "ack"]) ∧
    PopMessageProcessor.gen_ack_unique_id
        ⟨123, 456, "test_group", "test_topic", 1, 789, "test_broker"⟩
      = "test_topic@1@123@test_group@789@test_broker@ack" :=
  ⟨fun _ => rfl, rfl⟩

/-- C6: gen_batch_ack_unique_id joins topic, queue id, the debug rendering of
the offset list, consumer group, pop time and the bAck tag with the at-sign
delimiter, omitting the single ack offset and the broker name, and on the
reference test record it yields the exact literal of the spec. -/
theorem gen_batch_ack_unique_id_format :
    (∀ b : BatchAckMsg,
      PopMessageProcessor.gen_batch_ack_unique_id b =
        String.intercalate "@"
          [b.ack_msg.topic, toString b.ack_msg.queue_id,
            debug_fmt_int_list b.ack_offset_list, b.ack_msg.consumer_group,
            toString b.ack_msg.pop_time, "bAck"]) ∧
    PopMessageProcessor.gen_batch_ack_unique_id
        ⟨⟨123, 456, "test_group", "test_topic", 1, 789, "test_broker"⟩,
          [1, 2, 3]⟩
      = "test_topic@1@[1, 2, 3]@test_group@789@bAck" :=
  ⟨fun _ => rfl, rfl⟩

/-- C7: gen_ck_unique_id joins topic, queue id, start offset, consumer id,
pop time, the broker name or the literal null when absent, and the ck tag
with the at-sign delimiter; on the reference test record with a present
broker name it yields the exact literal of the spec, and with the broker
name absent that field renders as null. -/
theorem gen_ck_unique_id_format :
    (∀ ck : PopCheckPoint,
      PopMessageProcessor.gen_ck_unique_id ck =
        String.intercalate "@"
          [ck.topic, toString ck.queue_id, toString ck.start_offset, ck.cid,
            toString ck.pop_time, ck.broker_name.getD "null", "ck"]) ∧
    PopMessageProcessor.gen_ck_unique_id
        ⟨"test_topic", 1, 456, "test_cid", 0, 789, 0, 0, some "test_broker",
          0, [], none⟩
      = "test_topic@1@456@test_cid@789@test_broker@ck" ∧
    PopMessageProcessor.gen_ck_unique_id
        ⟨"test_topic", 1, 456, "test_cid", 0, 789, 0, 0, none, 0, [], none⟩
      = "test_topic@1@456@test_cid@789@null@ck" := by
  refine ⟨?_, rfl, rfl⟩
  intro ck
  cases ck with
  | mk t q s c r p i bm bn n qd rp => cases bn <;> rfl

/-- C8 counterexample: on a registry holding one expired entry, the sweep
returns one while zero entries remain after removal, so the returned value
is not the post-sweep registry size. -/
theorem clean_unused_locks_post_size_counterexample :
    (QueueLockManager.clean_unused_locks 100 5 [("k", ⟨false, 0⟩)]).1 = 1 ∧
    (QueueLockManager.clean_unused_locks 100 5 [("k", ⟨false, 0⟩)]).2.length = 0 ∧
    (QueueLockManager.clean_unused_locks 100 5 [("k", ⟨false, 0⟩)]).1 ≠
      (QueueLockManager.clean_unused_locks 100 5 [("k", ⟨false, 0⟩)]).2.length := by
  refine ⟨rfl, ?_, ?_⟩ <;> decide

/-- C8 amended: each sweep pass returns the registry size before the pass,
which equals the number of entries remaining after removal plus the number
of entries removed. -/
theorem clean_unused_locks_reports_pre_sweep_size (now used_expire_millis : Nat)
    (cache : QueueLockCache) :
    (QueueLockManager.clean_unused_locks now used_expire_millis cache).1 =
      (QueueLockManager.clean_unused_locks now used_expire_millis
          cache).2.length +
        (cache.filter
          (fun p => ! retainLock now used_expire_millis p.2)).length ∧
    (QueueLockManager.clean_unused_locks now used_expire_millis cache).1 =
      cache.length := by
  refine ⟨?_, rfl⟩
  simp only [QueueLockManager.clean_unused_locks]
  exact (length_filter_partition
    (fun p => retainLock now used_expire_millis p.2) cache).symm

/-- C9: across every TimedLock API step, the last-acquired time changes only
at a successful acquisition, at which point it is set to the current time
with the held flag going from false to true; a failed try_lock leaves the
lock untouched and a release never modifies the last-acquired time. -/
theorem timed_lock_last_acquired_invariant (tl : TimedLock) (now : Nat)
    (op : LockOp) :
    ((TimedLock.step now op tl).1.lock_time ≠ tl.lock_time →
      (TimedLock.step now op tl).2 = true) ∧
    ((TimedLock.step now op tl).2 = true →
      op = LockOp.tryAcquire ∧ tl.lock = false ∧
        (TimedLock.step now op tl).1.lock = true ∧
        (TimedLock.step now op tl).1.lock_time = now) ∧
    (op = LockOp.tryAcquire → tl.lock = true →
      (TimedLock.step now op tl).1 = tl ∧
        (TimedLock.step now op tl).2 = false) ∧
    (op = LockOp.release →
      (TimedLock.step now op tl).1.lock_time = tl.lock_time) := by
  cases op with
  | tryAcquire =>
    by_cases h : tl.lock = true
    · simp [TimedLock.step, TimedLock.try_lock, h]
    · simp only [Bool.not_eq_true] at h
      simp [TimedLock.step, TimedLock.try_lock, h]
  | release =>
    simp [TimedLock.step, TimedLock.unlock]

/-- Witness for C9: a successful acquisition setting the time, a failed
acquisition leaving the lock untouched, and a release preserving the time,
all on concrete locks. -/
theorem timed_lock_last_acquired_invariant_witness :
    (TimedLock.step 9 LockOp.tryAcquire ⟨false, 3⟩).2 = true ∧
    (LockOp.tryAcquire = LockOp.tryAcquire ∧
      (⟨false, 3⟩ : TimedLock).lock = false ∧
      (TimedLock.step 9 LockOp.tryAcquire ⟨false, 3⟩).1.lock = true ∧
      (TimedLock.step 9 LockOp.tryAcquire ⟨false, 3⟩).1.lock_time = 9) ∧
    ((⟨true, 4⟩ : TimedLock).lock = true ∧
      (TimedLock.step 11 LockOp.tryAcquire ⟨true, 4⟩).1 = ⟨true, 4⟩ ∧
      (TimedLock.step 11 LockOp.tryAcquire ⟨true, 4⟩).2 = false) ∧
    (TimedLock.step 12 LockOp.release ⟨true, 4⟩).1.lock_time = 4 :=
  ⟨rfl,
    (timed_lock_last_acquired_invariant ⟨false, 3⟩ 9 LockOp.tryAcquire).2.1 rfl,
    ⟨rfl,
      ((timed_lock_last_acquired_invariant ⟨true, 4⟩ 11
        LockOp.tryAcquire).2.2.1 rfl rfl).1,
      ((timed_lock_last_acquired_invariant ⟨true, 4⟩ 11
        LockOp.tryAcquire).2.2.1 rfl rfl).2⟩,
    (timed_lock_last_acquired_invariant ⟨true, 4⟩ 12 LockOp.release).2.2.2 rfl⟩

/-- C10: a lazily created lock starts unheld with its last-acquired time set
to the creation instant; the first try_lock on an absent key succeeds; and a
never re-acquired lock created at time t fails the retain predicate once the
idle threshold has elapsed past t, so the sweep evicts every entry holding
it. -/
theorem fresh_timed_lock_initialization (cache : QueueLockCache) (key : String)
    (now t threshold sweep_now : Nat)
    (habsent : lookupKey cache key = none)
    (hstale : t + threshold < sweep_now) :
    (TimedLock.new now).lock = false ∧
    (TimedLock.new now).lock_time = now ∧
    (QueueLockManager.try_lock_with_key now key cache).1 = true ∧
    retainLock sweep_now threshold (TimedLock.new t) = false ∧
    ∀ cache2 : QueueLockCache,
      (key, TimedLock.new t) ∉
        (QueueLockManager.clean_unused_locks sweep_now threshold cache2).2 := by
  have hwrap : u64_wrapping_sub sweep_now t = sweep_now - t := by
    unfold u64_wrapping_sub
    rw [if_pos (by omega : t ≤ sweep_now)]
  have hretain : retainLock sweep_now threshold (TimedLock.new t) = false := by
    simp only [retainLock, TimedLock.new, TimedLock.get_lock_time, hwrap,
      decide_eq_false_iff_not]
    omega
  refine ⟨rfl, rfl, ?_, hretain, ?_⟩
  · simp [QueueLockManager.try_lock_with_key, habsent, TimedLock.new,
      TimedLock.try_lock]
  · intro cache2 hmem
    simp only [QueueLockManager.clean_unused_locks, List.mem_filter] at hmem
    simp [hretain] at hmem

/-- Witness for C10: a fresh lock on the empty registry at concrete times,
swept once the threshold has elapsed. -/
theorem fresh_timed_lock_initialization_witness :
    lookupKey [] "k" = none ∧ 0 + 5 < 6 ∧
    (TimedLock.new 3).lock = false ∧
    (TimedLock.new 3).lock_time = 3 ∧
    (QueueLockManager.try_lock_with_key 3 "k" []).1 = true ∧
    retainLock 6 5 (TimedLock.new 0) = false ∧
    ("k", TimedLock.new 0) ∉
      (QueueLockManager.clean_unused_locks 6 5 [("k", TimedLock.new 0)]).2 :=
  ⟨rfl, by decide,
    (fresh_timed_lock_initialization [] "k" 3 0 5 6 rfl (by decide)).1,
    (fresh_timed_lock_initialization [] "k" 3 0 5 6 rfl (by decide)).2.1,
    (fresh_timed_lock_initialization [] "k" 3 0 5 6 rfl (by decide)).2.2.1,
    (fresh_timed_lock_initialization [] "k" 3 0 5 6 rfl (by decide)).2.2.2.1,
    (fresh_timed_lock_initialization [] "k" 3 0 5 6 rfl
      (by decide)).2.2.2.2 [("k", TimedLock.new 0)]⟩

end RocketMQ
